import Mathlib

/-!
Shallow embedding of the savedisk.space compression API server
(`src/server.js`).  The server is an Express application; each route
handler is embedded as a pure Lean function from the request data and an
environment of external-effect outcomes (codec probe results, filesystem
call results) to a structured response value together with the list of
files the request wrote to the uploads directory.

External codec calls (sharp, pdf-lib) and filesystem calls are modelled
as oracle fields of a per-request environment: the handler's control
flow over those outcomes is translated literally from the source.
-/

/-- Uploaded file as multer presents it to a handler: original name,
declared MIME type (from the multipart part header) and byte size. -/
structure UploadedFile where
  originalname : String
  mimetype : String
  size : Nat
deriving DecidableEq

/-- Extension mapping for image formats, `extMap` in server.js (lines
17-21): only image/jpeg, image/png, image/webp have entries. -/
def extMap (m : String) : Option String :=
  if m = "image/jpeg" then some ("jpg")
  else if m = "image/png" then some ("png")
  else if m = "image/webp" then some ("webp")
  else none

/-- MIME allow-list of the multer fileFilter (server.js line 45). -/
def allowedTypes : List String :=
  ["image/jpeg", "image/jpg", "image/png", "image/webp", "application/pdf"]

/-- Multer fileSize limit: 50 MiB (server.js line 42). -/
def fileSizeLimit : Nat := 50 * 1024 * 1024

/-- Outcome of the multer single-file middleware for a request.  The
fileFilter runs when the file part's headers arrive; a disallowed MIME
type aborts with a plain `Error` (server.js line 48).  An accepted file
that exceeds the fileSize limit aborts with a MulterError of code
LIMIT_FILE_SIZE.  With no file part, the handler runs with
`req.file` undefined. -/
inductive MulterOutcome where
  | reached (file : Option UploadedFile)
  | filterRejected
  | sizeLimited
deriving DecidableEq

/-- The multer middleware `upload.single(...)` (server.js lines 39-53). -/
def multerSingle (u : Option UploadedFile) : MulterOutcome :=
  match u with
  | none => .reached none
  | some f =>
    if f.mimetype ∈ allowedTypes then
      if f.size ≤ fileSizeLimit then .reached (some f) else .sizeLimited
    else .filterRejected

/-- Quality table entry as the handlers destructure it: either field is
undefined (none) when the bracket lookup lands on an inherited
Object.prototype member rather than an own table entry. -/
structure QualitySetting where
  quality : Option Nat
  description : Option String
deriving DecidableEq

/-- Property names every JS object literal inherits from
Object.prototype; a bracket lookup with one of these keys returns the
inherited member (a function, or for the dunder-proto key the
prototype object itself), and each of those values is truthy. -/
def objectPrototypeProps : List String :=
  ["constructor", "hasOwnProperty", "isPrototypeOf", "propertyIsEnumerable",
   "toLocaleString", "toString", "valueOf", "__proto__", "__defineGetter__",
   "__defineSetter__", "__lookupGetter__", "__lookupSetter__"]

/-- Quality mapping for compression levels, `getQualitySettings`
(server.js lines 56-64): low→90, medium→75, high→60, with the fallback
`qualityMap[level] || qualityMap.medium`.  A JS bracket lookup
traverses the prototype chain, so a level string naming an inherited
Object.prototype member returns that truthy member and the medium
fallback is NOT taken: destructuring quality and description from it
yields undefined for both.  Every other unknown key looks up as
undefined and falls back to the medium entry. -/
def getQualitySettings (level : String) : QualitySetting :=
  if level = "low" then ⟨some 90, some ("Minimal compression, best quality")⟩
  else if level = "medium" then ⟨some 75, some ("Balanced compression and quality")⟩
  else if level = "high" then ⟨some 60, some ("Maximum compression, smaller files")⟩
  else if level ∈ objectPrototypeProps then ⟨none, none⟩
  else ⟨some 75, some ("Balanced compression and quality")⟩

/-- Resolved format-specific encode parameters handed to sharp
(server.js lines 136-171): jpeg gets quality/progressive/mozjpeg, png a
fixed compressionLevel 9 (quality unused), webp gets quality. -/
inductive EncodeParams where
  | jpeg (quality : Nat) (progressive : Bool) (mozjpeg : Bool)
  | png (level : Nat)
  | webp (quality : Nat)
deriving DecidableEq

/-- Sharp's handling of an undefined quality option: the codec only
applies a quality when the option is defined and otherwise uses its
documented default of 80 for jpeg and webp. -/
def effectiveQuality (q : Option Nat) : Nat := q.getD 80

/-- The switch over the extension (server.js lines 136-171); the default
branch (unreachable for extMap outputs) yields no parameters and a 400.
An undefined quality (inherited-property level lookup) reaches sharp,
which resolves it to its default 80. -/
def encodeParamsFor (ext : String) (quality : Option Nat) : Option EncodeParams :=
  if ext = "jpg" then some (.jpeg (effectiveQuality quality) true true)
  else if ext = "png" then some (.png 9)
  else if ext = "webp" then some (.webp (effectiveQuality quality))
  else none

/-- Level string resolution `req.query.level || 'medium'` (server.js
lines 70, 322): an absent or empty (JS-falsy) query value defaults to
the string medium. -/
def resolveLevel (levelQ : Option String) : String :=
  match levelQ with
  | none => "medium"
  | some s => if s = "" then "medium" else s

/-- Half-up rounding to an integer, as ECMAScript Number.toFixed picks
the closer decimal (the larger on a tie). -/
def rnd (q : ℚ) : ℤ := ⌊q + 1 / 2⌋

/-- Rounding a rational to two decimal places, the model of
`parseFloat(x.toFixed(2))` on the stats fields. -/
def round2 (q : ℚ) : ℚ := ((rnd (q * 100) : ℤ) : ℚ) / 100

/-- Dimensions of sharp's resize with fit inside and
withoutEnlargement (server.js lines 128-133): an image already within
the box is untouched; otherwise both dimensions are scaled by the
fitting ratio (result rounded, clamped to at least one pixel). -/
def resizeInside (maxW maxH w h : Nat) : Nat × Nat :=
  if w ≤ maxW ∧ h ≤ maxH then (w, h)
  else
    let r : ℚ := min ((maxW : ℚ) / (w : ℚ)) ((maxH : ℚ) / (h : ℚ))
    (max 1 (rnd ((w : ℚ) * r)).toNat, max 1 (rnd ((h : ℚ) * r)).toNat)

/-- Result of sharp's metadata probe: width and height may be absent. -/
structure ImageMeta where
  width : Option Nat
  height : Option Nat
deriving DecidableEq

/-- JS truthiness of an optional numeric metadata field:
`!metadata.width` is true when width is undefined or zero. -/
def truthyNat (o : Option Nat) : Bool :=
  match o with
  | none => false
  | some n => n != 0

/-- Output filename, built as `compressed_<timestamp>.<ext>`
(server.js lines 103-104, 347-348); kept structured so that
`path.extname` is the ext component. -/
structure Filename where
  stem : String
  ext : String
deriving DecidableEq

/-- Per-request environment of external outcomes for the image upload
handler: the timestamp, whether fs.mkdir succeeds, the sharp metadata
probe result (none models a thrown codec error), whether
pipeline.toFile succeeds, and the fs.stat result on the written file. -/
structure ImageEnv where
  timestamp : Nat
  mkdirOk : Bool
  metadataResult : Option ImageMeta
  toFileOk : Bool
  statResult : Option Nat
deriving DecidableEq

/-- Stats object of a success response (server.js lines 263-271,
437-444).  The code returns both `savings` and `savingsPercent` with
the same rounded value, plus the ratio rounded to two decimals; a none
compressionDescription models an undefined value, which JSON
serialization drops from the response body. -/
structure Stats where
  originalSize : Nat
  compressedSize : Nat
  savings : ℚ
  savingsPercent : ℚ
  compressionLevel : String
  compressionDescription : Option String
  compressionRatioQ : ℚ
deriving DecidableEq

/-- Metadata object of an image success response (server.js lines
272-281). -/
structure ImageMetaResp where
  originalFormat : String
  outputFormat : String
  originalWidth : Nat
  originalHeight : Nat
  originalFilename : String
  processedFilename : Filename
deriving DecidableEq

/-- Full observable outcome of one request to the image upload route:
HTTP status, error/message body fields, success payload, the files the
request wrote into the uploads directory, whether the codec was
invoked, the resolved encode parameters, and the dimensions of the
written artifact (the resize output). -/
structure ImageResult where
  status : Nat
  error : Option String := none
  message : Option String := none
  success : Bool := false
  stats : Option Stats := none
  metadata : Option ImageMetaResp := none
  written : List Filename := []
  codecInvoked : Bool := false
  encodeParams : Option EncodeParams := none
  outputDims : Option (Nat × Nat) := none
deriving DecidableEq

/-- Generic 500 from the outer catch of the image handler
(server.js lines 311-314). -/
def imageCatch500 (codec : Bool) : ImageResult :=
  { status := 500, error := some ("Image processing failed"),
    message := some ("An unexpected error occurred while processing your image. Please try again."),
    codecInvoked := codec }

/-- The POST /api/upload handler body (server.js lines 67-316),
translated branch by branch. -/
def imageUploadHandler (file? : Option UploadedFile) (levelQ : Option String)
    (env : ImageEnv) : ImageResult :=
  let level := resolveLevel levelQ
  match file? with
  | none =>
    { status := 400, error := some ("No image uploaded"),
      message := some ("Please select an image file to upload") }
  | some file =>
    match extMap file.mimetype with
    | none =>
      { status := 400, error := some ("Unsupported format"),
        message := some ("Only JPEG, PNG, and WebP images are supported") }
    | some extension =>
      if env.mkdirOk = false then imageCatch500 false
      else
        let filename : Filename := ⟨"compressed_" ++ toString env.timestamp, extension⟩
        let quality := (getQualitySettings level).quality
        match env.metadataResult with
        | none => imageCatch500 true
        | some md =>
          if truthyNat md.width = false ∨ truthyNat md.height = false then
            { status := 400, error := some ("Invalid image"),
              message := some ("Unable to read image dimensions. File may be corrupted."),
              codecInvoked := true }
          else
            match encodeParamsFor extension quality with
            | none =>
              { status := 400, error := some ("Unsupported format"),
                message := some ("Format is not supported for compression"),
                codecInvoked := true }
            | some ep =>
              if env.toFileOk = false then
                { status := 500, error := some ("Compression failed"),
                  message := some ("Failed to process image. The file may be corrupted or in an unsupported format."),
                  codecInvoked := true, encodeParams := some ep }
              else
                match env.statResult with
                | none =>
                  { status := 500, error := some ("File processing error"),
                    message := some ("Compressed file could not be verified"),
                    written := [filename], codecInvoked := true,
                    encodeParams := some ep }
                | some compressedSize =>
                  if filename.ext ≠ extension then
                    { status := 500, error := some ("Format preservation failed"),
                      message := some ("File format was unexpectedly changed during processing"),
                      written := [filename], codecInvoked := true,
                      encodeParams := some ep }
                  else
                    let originalSize := file.size
                    let savingsRaw : ℚ :=
                      (((originalSize : ℚ) - (compressedSize : ℚ)) / (originalSize : ℚ)) * 100
                    let savingsPercent := round2 savingsRaw
                    let w := md.width.getD 0
                    let h := md.height.getD 0
                    { status := 200, success := true,
                      stats := some
                        { originalSize := originalSize,
                          compressedSize := compressedSize,
                          savings := savingsPercent,
                          savingsPercent := savingsPercent,
                          compressionLevel := level,
                          compressionDescription := (getQualitySettings level).description,
                          compressionRatioQ := round2 ((originalSize : ℚ) / (compressedSize : ℚ)) },
                      metadata := some
                        { originalFormat := file.mimetype,
                          outputFormat := file.mimetype,
                          originalWidth := w,
                          originalHeight := h,
                          originalFilename := file.originalname,
                          processedFilename := filename },
                      written := [filename], codecInvoked := true,
                      encodeParams := some ep,
                      outputDims := some (resizeInside 4000 4000 w h) }

/-- The full POST /api/upload route: multer middleware, then the
handler; middleware errors go to the error-handling middleware
(server.js lines 588-609): a MulterError LIMIT_FILE_SIZE becomes 400
File too large, while the fileFilter's plain Error is not a MulterError
and falls through to the generic 500. -/
def imageUploadRoute (u : Option UploadedFile) (levelQ : Option String)
    (env : ImageEnv) : ImageResult :=
  match multerSingle u with
  | .reached f => imageUploadHandler f levelQ env
  | .sizeLimited =>
    { status := 400, error := some ("File too large"),
      message := some ("Image file must be smaller than 50MB") }
  | .filterRejected =>
    { status := 500, error := some ("Internal server error"),
      message := some ("Something went wrong on our end") }

/-- pdf-lib save options object built by the level switch (server.js
lines 363-399).  Key absence is modelled as the false flag. -/
structure PdfSaveOptions where
  useObjectStreams : Bool
  addDefaultPage : Bool
  subset : Bool
  compress : Bool
deriving DecidableEq

/-- Level switch of /api/pdf-compress: low gets basic options, medium
adds subset, high adds compress, and the default branch repeats the
low options (server.js lines 394-398). -/
def pdfCompressionOptionsFor (level : String) : PdfSaveOptions :=
  if level = "low" then ⟨true, false, false, false⟩
  else if level = "medium" then ⟨true, false, true, false⟩
  else if level = "high" then ⟨true, false, true, true⟩
  else ⟨true, false, false, false⟩

/-- Per-request environment for the PDF route: timestamp, fs.mkdir
outcome, PDFDocument.load outcome (page count when it loads),
pdfDoc.save and fs.writeFile outcomes, and fs.stat result. -/
structure PdfEnv where
  timestamp : Nat
  mkdirOk : Bool
  loadResult : Option Nat
  saveOk : Bool
  writeOk : Bool
  statResult : Option Nat
deriving DecidableEq

/-- Metadata object of a PDF success response (server.js lines
446-452). -/
structure PdfMetaResp where
  originalFormat : String
  outputFormat : String
  pageCount : Nat
  originalFilename : String
  processedFilename : Filename
deriving DecidableEq

/-- Observable outcome of one request to the PDF compression route. -/
structure PdfResult where
  status : Nat
  error : Option String := none
  message : Option String := none
  success : Bool := false
  stats : Option Stats := none
  metadata : Option PdfMetaResp := none
  written : List Filename := []
  codecInvoked : Bool := false
  saveOptions : Option PdfSaveOptions := none
deriving DecidableEq

/-- Generic 500 of the PDF handler's single catch (server.js lines
468-475). -/
def pdfCatch500 (codec : Bool) (written : List Filename) : PdfResult :=
  { status := 500, error := some ("PDF processing failed"),
    message := some ("An unexpected error occurred while processing your PDF. Please try again."),
    codecInvoked := codec, written := written }

/-- The POST /api/pdf-compress handler body (server.js lines 319-476). -/
def pdfCompressHandler (file? : Option UploadedFile) (levelQ : Option String)
    (env : PdfEnv) : PdfResult :=
  let level := resolveLevel levelQ
  match file? with
  | none =>
    { status := 400, error := some ("No PDF uploaded"),
      message := some ("Please select a PDF file to upload") }
  | some file =>
    if file.mimetype ≠ "application/pdf" then
      { status := 400, error := some ("Invalid file type"),
        message := some ("Only PDF files are supported") }
    else if env.mkdirOk = false then pdfCatch500 false []
    else
      let filename : Filename := ⟨"compressed_" ++ toString env.timestamp, "pdf"⟩
      match env.loadResult with
      | none => pdfCatch500 true []
      | some pageCount =>
        let options := pdfCompressionOptionsFor level
        if env.saveOk = false then pdfCatch500 true []
        else if env.writeOk = false then pdfCatch500 true []
        else
          match env.statResult with
          | none => pdfCatch500 true [filename]
          | some compressedSize =>
            let originalSize := file.size
            let savingsRaw : ℚ :=
              (((originalSize : ℚ) - (compressedSize : ℚ)) / (originalSize : ℚ)) * 100
            let savingsPercent := round2 savingsRaw
            { status := 200, success := true,
              stats := some
                { originalSize := originalSize,
                  compressedSize := compressedSize,
                  savings := savingsPercent,
                  savingsPercent := savingsPercent,
                  compressionLevel := level,
                  compressionDescription := (getQualitySettings level).description,
                  compressionRatioQ := round2 ((originalSize : ℚ) / (compressedSize : ℚ)) },
              metadata := some
                { originalFormat := "application/pdf",
                  outputFormat := "application/pdf",
                  pageCount := pageCount,
                  originalFilename := file.originalname,
                  processedFilename := filename },
              written := [filename], codecInvoked := true,
              saveOptions := some options }

/-- The full POST /api/pdf-compress route with multer middleware (the
same shared `upload` instance and error middleware as /api/upload). -/
def pdfCompressRoute (u : Option UploadedFile) (levelQ : Option String)
    (env : PdfEnv) : PdfResult :=
  match multerSingle u with
  | .reached f => pdfCompressHandler f levelQ env
  | .sizeLimited =>
    { status := 400, error := some ("File too large"),
      message := some ("Image file must be smaller than 50MB") }
  | .filterRejected =>
    { status := 500, error := some ("Internal server error"),
      message := some ("Something went wrong on our end") }

/-- Helper splitting a character list at slashes, accumulating the
current (reversed) segment. -/
def splitSlashAux : List Char → List Char → List String
  | [], cur => [String.mk cur.reverse]
  | d :: rest, cur =>
    if d = '/' then String.mk cur.reverse :: splitSlashAux rest []
    else splitSlashAux rest (d :: cur)

/-- Path-segment split of a string at slashes (the decoded
`:filename` route parameter may contain encoded slashes). -/
def splitSlash (s : String) : List String := splitSlashAux s.data []

/-- Segments of the uploads directory's absolute path
(`path.join(__dirname, 'uploads')`); the server directory itself is
abstracted as the root segment srv. -/
def uploadsDirSegs : List String := ["srv", "uploads"]

/-- Normalization of a joined path as node's `path.join` performs it:
empty and dot segments vanish, a dot-dot segment pops the previous
segment.  The accumulator starts with the directory's segments. -/
def normalizeFrom (acc : List String) : List String → List String
  | [] => acc
  | s :: rest =>
    if s = "" ∨ s = "." then normalizeFrom acc rest
    else if s = ".." then normalizeFrom acc.dropLast rest
    else normalizeFrom (acc ++ [s]) rest

/-- Absolute path (as segments) that a filename route parameter
resolves to: `path.join(__dirname, 'uploads', filename)`
(server.js lines 482, 515). -/
def resolveUploadPath (filename : String) : List String :=
  normalizeFrom uploadsDirSegs (splitSlash filename)

/-- Observable outcome of the two file-serving GET routes: status,
structured error body when failing, and the absolute path of the file
served (none when no content is sent). -/
structure FileResponse where
  status : Nat
  error : Option String := none
  message : Option String := none
  served : Option (List String) := none
deriving DecidableEq

/-- GET /api/uploads/:filename (server.js lines 479-509): resolve the
name against the uploads directory, probe existence with fs.access
(modelled against the filesystem `fsys`, a list of absolute paths), and
either send the file or 404 with a structured error. -/
def previewRoute (fsys : List (List String)) (filename : String) : FileResponse :=
  let filePath := resolveUploadPath filename
  if filePath ∈ fsys then
    { status := 200, served := some filePath }
  else
    { status := 404, error := some ("Image not found"),
      message := some ("The requested image could not be found") }

/-- GET /api/download/:filename (server.js lines 512-542): same shape
as the preview route with a download disposition and its own 404 body. -/
def downloadRoute (fsys : List (List String)) (filename : String) : FileResponse :=
  let filePath := resolveUploadPath filename
  if filePath ∈ fsys then
    { status := 200, served := some filePath }
  else
    { status := 404, error := some ("File not found"),
      message := some ("The requested file could not be found") }

/-- Success body of POST /api/image-info (server.js lines 557-568),
restricted to the fields the probe model carries. -/
structure InfoBody where
  filename : String
  size : Nat
  mimetype : String
  width : Option Nat
  height : Option Nat
deriving DecidableEq

/-- Observable outcome of POST /api/image-info. -/
structure InfoResult where
  status : Nat
  error : Option String := none
  message : Option String := none
  body : Option InfoBody := none
deriving DecidableEq

/-- The POST /api/image-info handler body (server.js lines 545-576):
with no file, 400 with body containing only the error field; a probe
failure is caught as a 500 (whose message forwards the codec's
message, abstracted here). -/
def imageInfoHandler (file? : Option UploadedFile) (probe : Option ImageMeta) : InfoResult :=
  match file? with
  | none => { status := 400, error := some ("No image uploaded") }
  | some file =>
    match probe with
    | none =>
      { status := 500, error := some ("Failed to get image information"),
        message := some ("codec error message") }
    | some md =>
      { status := 200,
        body := some ⟨file.originalname, file.size, file.mimetype, md.width, md.height⟩ }

/-- The full POST /api/image-info route with the shared multer
middleware. -/
def imageInfoRoute (u : Option UploadedFile) (probe : Option ImageMeta) : InfoResult :=
  match multerSingle u with
  | .reached f => imageInfoHandler f probe
  | .sizeLimited =>
    { status := 400, error := some ("File too large"),
      message := some ("Image file must be smaller than 50MB") }
  | .filterRejected =>
    { status := 500, error := some ("Internal server error"),
      message := some ("Something went wrong on our end") }

/-- Stats rewritten with a different compressionLevel field; used to
state how an unknown level's response relates to the medium response. -/
def Stats.withLevel (s : Stats) (l : String) : Stats :=
  { s with compressionLevel := l }

/-- Image response rewritten with a different stats compressionLevel. -/
def ImageResult.withLevel (r : ImageResult) (l : String) : ImageResult :=
  { r with stats := r.stats.map (Stats.withLevel · l) }


/-- Sample per-request environment in which every external call
succeeds: probe sees a 1200x800 image, the written file measures
1000000 bytes. -/
def sampleEnv : ImageEnv := ⟨1700000000000, true, some ⟨some 1200, some 800⟩, true, some 1000000⟩

/-- Sample accepted PNG upload of 2 MiB. -/
def samplePng : UploadedFile := ⟨"photo.png", "image/png", 2048576⟩

/-- Sample accepted JPEG upload, used to observe the resolved jpeg
quality. -/
def sampleJpg : UploadedFile := ⟨"photo.jpg", "image/jpeg", 500000⟩

/-- Sample environment for the PDF route with a 12-page document and a
900000-byte output. -/
def samplePdfEnv : PdfEnv := ⟨1700000000000, true, some 12, true, true, some 900000⟩

/-- Sample accepted PDF upload of 1 MiB. -/
def samplePdf : UploadedFile := ⟨"doc.pdf", "application/pdf", 1048576⟩

/-- Environment whose stat result exceeds the upload by one byte: the
compressed artifact is minimally inflated. -/
def inflateEnv : ImageEnv := ⟨1700000000001, true, some ⟨some 10, some 10⟩, true, some 1000001⟩

/-- Upload of exactly 1000000 bytes, paired with inflateEnv. -/
def inflateFile : UploadedFile := ⟨"tiny.png", "image/png", 1000000⟩

/-- Environment in which the sharp metadata probe throws. -/
def badProbeEnv : ImageEnv := ⟨1700000000002, true, none, true, some 500⟩

/-- Upload declaring a MIME type outside the multer allow-list. -/
def plainTextFile : UploadedFile := ⟨"notes.txt", "text/plain", 100⟩

/-- Oversized upload (one byte above the 50 MiB limit) declaring a
MIME type outside the allow-list. -/
def bigPlainTextFile : UploadedFile := ⟨"big.txt", "text/plain", 52428801⟩

/-- Oversized upload with an accepted MIME type. -/
def bigPngFile : UploadedFile := ⟨"big.png", "image/png", 52428801⟩

/-- Sample filesystem: one produced artifact inside the uploads
directory, and the server's own source file one level up. -/
def sampleFs : List (List String) :=
  [["srv", "uploads", "compressed_1.png"], ["srv", "server.js"]]

/-- Metadata object of the sample successful PNG request. -/
def sampleImageMeta : ImageMetaResp :=
  ⟨"image/png", "image/png", 1200, 800, "photo.png", ⟨"compressed_1700000000000", "png"⟩⟩

/-- Stats object of the sample successful PNG request (51.19 percent
savings). -/
def sampleStats : Stats :=
  ⟨2048576, 1000000, (5119 : ℚ) / 100, (5119 : ℚ) / 100, "medium",
    some ("Balanced compression and quality"), (41 : ℚ) / 20⟩

/-- Upload declaring image/jpg: allowed by the multer filter, absent
from extMap. -/
def jpgMimeFile : UploadedFile := ⟨"x.jpg", "image/jpg", 1000⟩

/-- Environment whose probe reports a zero width (JS-falsy), a readable
probe result that fails the dimension validation. -/
def zeroDimEnv : ImageEnv := ⟨1700000000003, true, some ⟨some 0, some 500⟩, true, some 10⟩

/-- Small accepted PNG upload. -/
def smallPng : UploadedFile := ⟨"z.png", "image/png", 100⟩

/-! ## Helper lemmas -/

theorem rnd_nonneg {q : ℚ} (h : 0 ≤ q) : 0 ≤ rnd q := by
  unfold rnd
  exact Int.le_floor.mpr (by push_cast; linarith)

theorem rnd_nonpos {q : ℚ} (h : q ≤ 0) : rnd q ≤ 0 := by
  unfold rnd
  have hlt : ⌊q + 1 / 2⌋ < 1 := Int.floor_lt.mpr (by push_cast; linarith)
  omega

theorem rnd_le_nat {q : ℚ} {n : ℕ} (h : q ≤ (n : ℚ)) : rnd q ≤ (n : ℤ) := by
  unfold rnd
  have hlt : ⌊q + 1 / 2⌋ < (n : ℤ) + 1 := Int.floor_lt.mpr (by push_cast; linarith)
  omega

theorem round2_nonneg {q : ℚ} (h : 0 ≤ q) : 0 ≤ round2 q := by
  unfold round2
  have h1 : (0 : ℤ) ≤ rnd (q * 100) := rnd_nonneg (by positivity)
  have h2 : (0 : ℚ) ≤ ((rnd (q * 100) : ℤ) : ℚ) := by exact_mod_cast h1
  positivity

theorem round2_nonpos {q : ℚ} (h : q ≤ 0) : round2 q ≤ 0 := by
  unfold round2
  have h1 : rnd (q * 100) ≤ 0 := rnd_nonpos (by nlinarith)
  have h2 : ((rnd (q * 100) : ℤ) : ℚ) ≤ 0 := by exact_mod_cast h1
  have : (0 : ℚ) < 100 := by norm_num
  exact div_nonpos_of_nonpos_of_nonneg h2 (by norm_num)

theorem splitSlashAux_no_slash (l : List Char) (cur : List Char) (h : '/' ∉ l) :
    splitSlashAux l cur = [String.mk (cur.reverse ++ l)] := by
  induction l generalizing cur with
  | nil => simp [splitSlashAux]
  | cons d rest ih =>
    have hd : d ≠ '/' := fun e => h (e ▸ List.mem_cons_self d rest)
    have hr : '/' ∉ rest := fun m => h (List.mem_cons_of_mem _ m)
    simp only [splitSlashAux, hd, if_false]
    rw [ih _ hr]
    simp

theorem splitSlash_no_slash (s : String) (h : '/' ∉ s.data) : splitSlash s = [s] := by
  unfold splitSlash
  rw [splitSlashAux_no_slash _ _ h]
  cases s
  simp

theorem normalizeFrom_single (acc : List String) (s : String)
    (h0 : s ≠ "") (h1 : s ≠ ".") (h2 : s ≠ "..") :
    normalizeFrom acc [s] = acc ++ [s] := by
  simp [normalizeFrom, h0, h1, h2]

/-! ## Claim theorems -/

/-- C7 counterexample: the filename dot-dot-slash server.js was never
produced by a compression request and no file of that name exists in
the storage directory, yet both GET routes serve the server's own
source file with status 200 instead of responding 404 — the joined
path escapes the uploads directory. -/
theorem file_server_absent_name_cex :
    (uploadsDirSegs ++ ["../server.js"]) ∉ sampleFs ∧
    (previewRoute sampleFs "../server.js").status = 200 ∧
    (previewRoute sampleFs "../server.js").served = some (["srv", "server.js"]) ∧
    (downloadRoute sampleFs "../server.js").status = 200 ∧
    (downloadRoute sampleFs "../server.js").served = some (["srv", "server.js"]) := by
  decide

/-- C7 (amended): for every single-segment filename (no slash, not a
dot or dot-dot segment) for which no file of that name exists in the
storage directory, both the preview and the download endpoints respond
404 with a structured error/message body and serve no file content; a
filename whose segments escape the uploads directory may instead be
served from outside the directory. -/
theorem file_server_absent_name_404 (fsys : List (List String)) (filename : String)
    (hslash : '/' ∉ filename.data)
    (h0 : filename ≠ "") (h1 : filename ≠ ".") (h2 : filename ≠ "..")
    (habs : (uploadsDirSegs ++ [filename]) ∉ fsys) :
    previewRoute fsys filename =
      { status := 404, error := some ("Image not found"),
        message := some ("The requested image could not be found") } ∧
    downloadRoute fsys filename =
      { status := 404, error := some ("File not found"),
        message := some ("The requested file could not be found") } := by
  have hres : resolveUploadPath filename = uploadsDirSegs ++ [filename] := by
    unfold resolveUploadPath
    rw [splitSlash_no_slash _ hslash, normalizeFrom_single _ _ h0 h1 h2]
  unfold previewRoute downloadRoute
  rw [hres]
  simp [habs]

/-- C7 witness: a plain absent filename on the empty storage directory
gets the structured 404 from both endpoints. -/
theorem file_server_absent_name_404_witness :
    previewRoute [] "nope.png" =
      { status := 404, error := some ("Image not found"),
        message := some ("The requested image could not be found") } ∧
    downloadRoute [] "nope.png" =
      { status := 404, error := some ("File not found"),
        message := some ("The requested file could not be found") } :=
  file_server_absent_name_404 [] "nope.png" (by decide) (by decide) (by decide)
    (by decide) (by decide)

/-- C9: a POST to /api/image-info with no file in the multipart field
responds 400 with body error No image uploaded (and no message field),
not 500. -/
theorem image_info_no_file_400 :
    ∀ probe : Option ImageMeta,
      imageInfoRoute none probe =
        { status := 400, error := some ("No image uploaded") } ∧
      (imageInfoRoute none probe).status ≠ 500 := by
  intro probe
  constructor <;> simp [imageInfoRoute, imageInfoHandler, multerSingle]

theorem multerSingle_reached (u : Option UploadedFile) (f : Option UploadedFile)
    (h : multerSingle u = .reached f) : u = f := by
  unfold multerSingle at h
  cases u
  all_goals repeat' split at h
  all_goals simp_all

/-- C2: for every successful compression request the response's
outputFormat equals the declared input MIME type on the image endpoint
(it also equals the reported originalFormat: no conversion), and it is
always application/pdf on the PDF endpoint. -/
theorem output_format_invariant :
    (∀ (f : UploadedFile) (lq : Option String) (env : ImageEnv) (m : ImageMetaResp),
      (imageUploadRoute (some f) lq env).metadata = some m →
        m.outputFormat = f.mimetype ∧ m.outputFormat = m.originalFormat) ∧
    (∀ (u : Option UploadedFile) (lq : Option String) (env : PdfEnv) (m : PdfMetaResp),
      (pdfCompressRoute u lq env).metadata = some m →
        m.outputFormat = "application/pdf") := by
  constructor
  · intro f lq env m h
    unfold imageUploadRoute at h
    split at h
    case _ f' heq =>
      have hf : some f = f' := multerSingle_reached _ _ heq
      subst hf
      simp only [imageUploadHandler, imageCatch500] at h
      repeat' split at h
      all_goals simp at h
      all_goals (cases h)
      all_goals simp
    all_goals simp_all
  · intro u lq env m h
    unfold pdfCompressRoute at h
    split at h
    case _ f' heq =>
      simp only [pdfCompressHandler, pdfCatch500] at h
      repeat' split at h
      all_goals simp at h
      all_goals (cases h)
      all_goals simp
    all_goals simp_all

/-- C2 witness: the sample successful PNG request carries the concrete
metadata object, whose outputFormat is the declared image/png. -/
theorem output_format_invariant_witness :
    (imageUploadRoute (some samplePng) none sampleEnv).metadata = some sampleImageMeta ∧
    (sampleImageMeta.outputFormat = samplePng.mimetype ∧
      sampleImageMeta.outputFormat = sampleImageMeta.originalFormat) :=
  ⟨by decide, output_format_invariant.1 samplePng none sampleEnv sampleImageMeta (by decide)⟩

theorem imageRoute_stats_inv (u : Option UploadedFile) (lq : Option String)
    (env : ImageEnv) (s : Stats)
    (h : (imageUploadRoute u lq env).stats = some s) :
    s.savingsPercent =
      round2 ((((s.originalSize : ℚ) - (s.compressedSize : ℚ)) / (s.originalSize : ℚ)) * 100) ∧
    s.savings = s.savingsPercent := by
  unfold imageUploadRoute at h
  split at h
  case _ f' heq =>
    simp only [imageUploadHandler, imageCatch500] at h
    repeat' split at h
    all_goals simp at h
    all_goals (cases h)
    all_goals simp
  all_goals simp_all

theorem pdfRoute_stats_inv (u : Option UploadedFile) (lq : Option String)
    (env : PdfEnv) (s : Stats)
    (h : (pdfCompressRoute u lq env).stats = some s) :
    s.savingsPercent =
      round2 ((((s.originalSize : ℚ) - (s.compressedSize : ℚ)) / (s.originalSize : ℚ)) * 100) ∧
    s.savings = s.savingsPercent := by
  unfold pdfCompressRoute at h
  split at h
  case _ f' heq =>
    simp only [pdfCompressHandler, pdfCatch500] at h
    repeat' split at h
    all_goals simp at h
    all_goals (cases h)
    all_goals simp
  all_goals simp_all

/-- C3 counterexample: an image request whose artifact is one byte
larger than the original (compressedSize 1000001 over originalSize
1000000) succeeds with compressedSize greater than originalSize but a
savingsPercent of zero, not negative: the minus 0.0001 percent raw
savings rounds to two decimal places as zero, so savingsPercent is not
negative exactly when compression inflates the file. -/
theorem savings_percent_sign_cex :
    (imageUploadRoute (some inflateFile) none inflateEnv).stats.map Stats.originalSize
        = some 1000000 ∧
    (imageUploadRoute (some inflateFile) none inflateEnv).stats.map Stats.compressedSize
        = some 1000001 ∧
    (imageUploadRoute (some inflateFile) none inflateEnv).stats.map Stats.savingsPercent
        = some 0 := by
  refine ⟨by decide, by decide, ?_⟩
  have h1 : (imageUploadRoute (some inflateFile) none inflateEnv).stats.map Stats.savingsPercent
      = some (round2 (((((1000000:ℕ):ℚ) - ((1000001:ℕ):ℚ)) / ((1000000:ℕ):ℚ)) * 100)) := rfl
  rw [h1]
  norm_num [round2, rnd]

/-- C3 (amended): for every successful compression request on either
endpoint, savingsPercent equals (originalSize - compressedSize) /
originalSize * 100 rounded to two decimal places, both sizes are
nonnegative, and a negative savingsPercent implies the compressed file
is larger than the original; conversely an inflated file always yields
savingsPercent at most zero, but an inflation of less than 0.005
percent of the original rounds to zero rather than a negative value. -/
theorem savings_percent_spec (s : Stats)
    (h : (∃ u lq env, (imageUploadRoute u lq env).stats = some s) ∨
         (∃ u lq env, (pdfCompressRoute u lq env).stats = some s)) :
    s.savingsPercent =
      round2 ((((s.originalSize : ℚ) - (s.compressedSize : ℚ)) / (s.originalSize : ℚ)) * 100) ∧
    0 ≤ s.originalSize ∧ 0 ≤ s.compressedSize ∧
    (s.savingsPercent < 0 → s.originalSize < s.compressedSize) ∧
    (s.originalSize < s.compressedSize → s.savingsPercent ≤ 0) := by
  have key : s.savingsPercent =
      round2 ((((s.originalSize : ℚ) - (s.compressedSize : ℚ)) / (s.originalSize : ℚ)) * 100) := by
    rcases h with ⟨u, lq, env, h⟩ | ⟨u, lq, env, h⟩
    · exact (imageRoute_stats_inv u lq env s h).1
    · exact (pdfRoute_stats_inv u lq env s h).1
  refine ⟨key, Nat.zero_le _, Nat.zero_le _, ?_, ?_⟩
  · intro hneg
    by_contra hle
    push_neg at hle
    have hsub : (0 : ℚ) ≤ (s.originalSize : ℚ) - (s.compressedSize : ℚ) := by
      have : (s.compressedSize : ℚ) ≤ (s.originalSize : ℚ) := by exact_mod_cast hle
      linarith
    have hdiv : (0 : ℚ) ≤ ((s.originalSize : ℚ) - (s.compressedSize : ℚ)) / (s.originalSize : ℚ) :=
      div_nonneg hsub (by positivity)
    have hraw : (0 : ℚ) ≤ (((s.originalSize : ℚ) - (s.compressedSize : ℚ)) / (s.originalSize : ℚ)) * 100 := by
      linarith
    have := round2_nonneg hraw
    rw [key] at hneg
    linarith
  · intro hlt
    have hsub : (s.originalSize : ℚ) - (s.compressedSize : ℚ) ≤ 0 := by
      have : (s.originalSize : ℚ) ≤ (s.compressedSize : ℚ) := by exact_mod_cast hlt.le
      linarith
    have hdiv : ((s.originalSize : ℚ) - (s.compressedSize : ℚ)) / (s.originalSize : ℚ) ≤ 0 :=
      div_nonpos_of_nonpos_of_nonneg hsub (by positivity)
    have hraw : (((s.originalSize : ℚ) - (s.compressedSize : ℚ)) / (s.originalSize : ℚ)) * 100 ≤ 0 := by
      linarith
    rw [key]
    exact round2_nonpos hraw

/-- C3 witness: the sample successful PNG request carries the concrete
stats object, which satisfies the amended savings properties. -/
theorem savings_percent_spec_witness :
    (imageUploadRoute (some samplePng) none sampleEnv).stats = some sampleStats ∧
    (sampleStats.savingsPercent =
      round2 ((((sampleStats.originalSize : ℚ) - (sampleStats.compressedSize : ℚ)) /
        (sampleStats.originalSize : ℚ)) * 100) ∧
    0 ≤ sampleStats.originalSize ∧ 0 ≤ sampleStats.compressedSize ∧
    (sampleStats.savingsPercent < 0 → sampleStats.originalSize < sampleStats.compressedSize) ∧
    (sampleStats.originalSize < sampleStats.compressedSize → sampleStats.savingsPercent ≤ 0)) := by
  have hstats : (imageUploadRoute (some samplePng) none sampleEnv).stats = some sampleStats := by
    have h1 : (imageUploadRoute (some samplePng) none sampleEnv).stats = some
        { originalSize := 2048576, compressedSize := 1000000,
          savings := round2 (((((2048576:ℕ):ℚ) - ((1000000:ℕ):ℚ)) / ((2048576:ℕ):ℚ)) * 100),
          savingsPercent := round2 (((((2048576:ℕ):ℚ) - ((1000000:ℕ):ℚ)) / ((2048576:ℕ):ℚ)) * 100),
          compressionLevel := "medium",
          compressionDescription := some ("Balanced compression and quality"),
          compressionRatioQ := round2 (((2048576:ℕ):ℚ) / ((1000000:ℕ):ℚ)) } := rfl
    rw [h1]
    norm_num [round2, rnd, sampleStats, Stats.mk.injEq]
  exact ⟨hstats,
    savings_percent_spec sampleStats (Or.inl ⟨some samplePng, none, sampleEnv, hstats⟩)⟩

theorem cast_mul_div_self_le (m a : ℕ) : (a : ℚ) * ((m : ℚ) / (a : ℚ)) ≤ (m : ℚ) := by
  rcases Nat.eq_zero_or_pos a with h | h
  · subst h; simp
  · have ha : ((a : ℚ)) ≠ 0 := by positivity
    rw [mul_comm, div_mul_cancel₀ _ ha]

theorem resizeInside_le (w h : Nat) :
    (resizeInside 4000 4000 w h).1 ≤ 4000 ∧ (resizeInside 4000 4000 w h).2 ≤ 4000 := by
  unfold resizeInside
  split
  · next hc => exact ⟨hc.1, hc.2⟩
  · constructor
    · apply max_le (by norm_num)
      have h1 : (w:ℚ) * min ((4000:ℚ)/(w:ℚ)) ((4000:ℚ)/(h:ℚ)) ≤ (4000 : ℚ) := by
        calc (w:ℚ) * min ((4000:ℚ)/(w:ℚ)) ((4000:ℚ)/(h:ℚ))
            ≤ (w:ℚ) * ((4000:ℚ)/(w:ℚ)) := by
              apply mul_le_mul_of_nonneg_left (min_le_left _ _) (by positivity)
          _ ≤ (4000 : ℚ) := by exact_mod_cast cast_mul_div_self_le 4000 w
      have h2 := rnd_le_nat (n := 4000) h1
      exact Int.toNat_le.mpr (by exact_mod_cast h2)
    · apply max_le (by norm_num)
      have h1 : (h:ℚ) * min ((4000:ℚ)/(w:ℚ)) ((4000:ℚ)/(h:ℚ)) ≤ (4000 : ℚ) := by
        calc (h:ℚ) * min ((4000:ℚ)/(w:ℚ)) ((4000:ℚ)/(h:ℚ))
            ≤ (h:ℚ) * ((4000:ℚ)/(h:ℚ)) := by
              apply mul_le_mul_of_nonneg_left (min_le_right _ _) (by positivity)
          _ ≤ (4000 : ℚ) := by exact_mod_cast cast_mul_div_self_le 4000 h
      have h2 := rnd_le_nat (n := 4000) h1
      exact Int.toNat_le.mpr (by exact_mod_cast h2)

/-- C8: every successfully compressed image has its written artifact's
dimensions bounded by 4000 in each coordinate, and the resize leaves an
image already within the bound at its original dimensions (no
upscaling). -/
theorem resize_bound_spec :
    (∀ (u : Option UploadedFile) (lq : Option String) (env : ImageEnv) (d : Nat × Nat),
      (imageUploadRoute u lq env).outputDims = some d → d.1 ≤ 4000 ∧ d.2 ≤ 4000) ∧
    (∀ w h : Nat, w ≤ 4000 → h ≤ 4000 → resizeInside 4000 4000 w h = (w, h)) := by
  constructor
  · intro u lq env d hd
    unfold imageUploadRoute at hd
    split at hd
    case _ f' heq =>
      simp only [imageUploadHandler, imageCatch500] at hd
      repeat' split at hd
      all_goals simp at hd
      all_goals (cases hd)
      all_goals exact resizeInside_le _ _
    all_goals simp_all
  · intro w h hw hh
    unfold resizeInside
    simp [hw, hh]

/-- C8 witness: the sample 1200x800 upload succeeds with untouched
dimensions, which satisfy the bound. -/
theorem resize_bound_spec_witness :
    (imageUploadRoute (some samplePng) none sampleEnv).outputDims = some (1200, 800) ∧
    ((1200, 800) : Nat × Nat).1 ≤ 4000 ∧ ((1200, 800) : Nat × Nat).2 ≤ 4000 :=
  ⟨by decide, resize_bound_spec.1 (some samplePng) none sampleEnv (1200, 800) (by decide)⟩

theorem imageRoute_unknown_level (l : String)
    (h0 : l ≠ "low") (h1 : l ≠ "medium") (h2 : l ≠ "high") (h3 : l ≠ "")
    (hp : l ∉ objectPrototypeProps)
    (u : Option UploadedFile) (env : ImageEnv) :
    imageUploadRoute u (some l) env = (imageUploadRoute u (some "medium") env).withLevel l := by
  have hq : getQualitySettings l = getQualitySettings "medium" := by
    unfold getQualitySettings; simp [h0, h1, h2, hp]
  have hrl : resolveLevel (some l) = l := by unfold resolveLevel; simp [h3]
  have hrm : resolveLevel (some "medium") = "medium" := rfl
  unfold imageUploadRoute
  cases hmo : multerSingle u with
  | sizeLimited => simp [ImageResult.withLevel]
  | filterRejected => simp [ImageResult.withLevel]
  | reached f =>
    unfold imageUploadHandler
    simp only [hrl, hrm, hq]
    cases f with
    | none => simp [ImageResult.withLevel]
    | some file =>
      repeat' split
      all_goals simp [ImageResult.withLevel, Stats.withLevel, imageCatch500]

theorem imageRoute_stats_level (u : Option UploadedFile) (lq : Option String)
    (env : ImageEnv) (s : Stats) (h : (imageUploadRoute u lq env).stats = some s) :
    s.compressionLevel = resolveLevel lq ∧
    s.compressionDescription = (getQualitySettings (resolveLevel lq)).description := by
  unfold imageUploadRoute at h
  split at h
  case _ f' heq =>
    simp only [imageUploadHandler, imageCatch500] at h
    repeat' split at h
    all_goals simp at h
    all_goals (cases h)
    all_goals simp
  all_goals simp_all

theorem pdfRoute_stats_level (u : Option UploadedFile) (lq : Option String)
    (env : PdfEnv) (s : Stats) (h : (pdfCompressRoute u lq env).stats = some s) :
    s.compressionLevel = resolveLevel lq ∧
    s.compressionDescription = (getQualitySettings (resolveLevel lq)).description := by
  unfold pdfCompressRoute at h
  split at h
  case _ f' heq =>
    simp only [pdfCompressHandler, pdfCatch500] at h
    repeat' split at h
    all_goals simp at h
    all_goals (cases h)
    all_goals simp
  all_goals simp_all

theorem pdfRoute_saveOptions_eq (l₁ l₂ : Option String) (u : Option UploadedFile) (env : PdfEnv)
    (hopt : pdfCompressionOptionsFor (resolveLevel l₁) = pdfCompressionOptionsFor (resolveLevel l₂)) :
    (pdfCompressRoute u l₁ env).saveOptions = (pdfCompressRoute u l₂ env).saveOptions := by
  unfold pdfCompressRoute
  cases hmo : multerSingle u with
  | sizeLimited => rfl
  | filterRejected => rfl
  | reached f =>
    unfold pdfCompressHandler
    simp only [hopt]
    cases f with
    | none => rfl
    | some file =>
      repeat' split
      all_goals simp [pdfCatch500]

/-- C1 counterexample: the unknown level string bogus is echoed (not
medium) as stats.compressionLevel on both endpoints and gets the low
PDF save options (no subset), not the medium ones; and the unknown
level string constructor lands on the inherited Object.prototype
member, so the jpeg quality resolves to sharp's default 80 instead of
medium's 75 and the compressionDescription field is dropped (undefined)
instead of carrying the medium description. -/
theorem quality_policy_unknown_level_cex :
    (pdfCompressRoute (some samplePdf) (some "bogus") samplePdfEnv).stats.map Stats.compressionLevel
        = some ("bogus") ∧
    (pdfCompressRoute (some samplePdf) (some "medium") samplePdfEnv).stats.map Stats.compressionLevel
        = some ("medium") ∧
    (pdfCompressRoute (some samplePdf) (some "bogus") samplePdfEnv).saveOptions
        = some (⟨true, false, false, false⟩ : PdfSaveOptions) ∧
    (pdfCompressRoute (some samplePdf) (some "medium") samplePdfEnv).saveOptions
        = some (⟨true, false, true, false⟩ : PdfSaveOptions) ∧
    (imageUploadRoute (some samplePng) (some "bogus") sampleEnv).stats.map Stats.compressionLevel
        = some ("bogus") ∧
    (imageUploadRoute (some sampleJpg) (some "constructor") sampleEnv).encodeParams
        = some (EncodeParams.jpeg 80 true true) ∧
    (imageUploadRoute (some sampleJpg) (some "medium") sampleEnv).encodeParams
        = some (EncodeParams.jpeg 75 true true) ∧
    (imageUploadRoute (some sampleJpg) (some "constructor") sampleEnv).stats.map
        Stats.compressionDescription = some none ∧
    (imageUploadRoute (some sampleJpg) (some "medium") sampleEnv).stats.map
        Stats.compressionDescription = some (some ("Balanced compression and quality")) := by
  decide

/-- C1 (amended): the Quality Policy's own table maps low to 90, medium
to 75 and high to 60 with their fixed descriptions, and absent or empty
level strings behave fully as medium.  For any other unknown level
string, stats.compressionLevel echoes the raw string and the PDF save
options equal those of low (no font subsetting), not medium; an unknown
string that is not an inherited Object.prototype property name resolves
quality and compressionDescription exactly as medium, but one naming an
inherited member (constructor, toString, ...) bypasses the medium
fallback: quality and description are undefined, sharp encodes jpeg and
webp with its default quality 80 rather than medium's 75, and the
compressionDescription field is dropped from the response. -/
theorem quality_policy_spec (l : String)
    (h0 : l ≠ "low") (h1 : l ≠ "medium") (h2 : l ≠ "high") (h3 : l ≠ "") :
    getQualitySettings "low" = ⟨some 90, some ("Minimal compression, best quality")⟩ ∧
    getQualitySettings "medium" = ⟨some 75, some ("Balanced compression and quality")⟩ ∧
    getQualitySettings "high" = ⟨some 60, some ("Maximum compression, smaller files")⟩ ∧
    (∀ u env, imageUploadRoute u (some "") env = imageUploadRoute u (some "medium") env) ∧
    (∀ u env, pdfCompressRoute u (some "") env = pdfCompressRoute u (some "medium") env) ∧
    (∀ u env, imageUploadRoute u none env = imageUploadRoute u (some "medium") env) ∧
    (∀ u env, pdfCompressRoute u none env = pdfCompressRoute u (some "medium") env) ∧
    (pdfCompressionOptionsFor l = pdfCompressionOptionsFor "low" ∧
      pdfCompressionOptionsFor l ≠ pdfCompressionOptionsFor "medium" ∧
      (∀ u env, (pdfCompressRoute u (some l) env).saveOptions =
        (pdfCompressRoute u (some "low") env).saveOptions)) ∧
    (∀ u env s, (imageUploadRoute u (some l) env).stats = some s → s.compressionLevel = l) ∧
    (∀ u env s, (pdfCompressRoute u (some l) env).stats = some s → s.compressionLevel = l) ∧
    (l ∉ objectPrototypeProps →
      getQualitySettings l = getQualitySettings "medium" ∧
      (∀ u env, imageUploadRoute u (some l) env =
        (imageUploadRoute u (some "medium") env).withLevel l) ∧
      (∀ u env s, (pdfCompressRoute u (some l) env).stats = some s →
        s.compressionDescription = some ("Balanced compression and quality"))) ∧
    (l ∈ objectPrototypeProps →
      getQualitySettings l = ⟨none, none⟩ ∧
      effectiveQuality (getQualitySettings l).quality = 80 ∧
      encodeParamsFor "jpg" (getQualitySettings l).quality ≠
        encodeParamsFor "jpg" (getQualitySettings "medium").quality ∧
      (∀ u env s, (imageUploadRoute u (some l) env).stats = some s →
        s.compressionDescription = none) ∧
      (∀ u env s, (pdfCompressRoute u (some l) env).stats = some s →
        s.compressionDescription = none)) := by
  have hrl : resolveLevel (some l) = l := by unfold resolveLevel; simp [h3]
  have hrlow : resolveLevel (some "low") = "low" := rfl
  have hpo : pdfCompressionOptionsFor l = pdfCompressionOptionsFor "low" := by
    unfold pdfCompressionOptionsFor; simp [h0, h1, h2]
  refine ⟨by decide, by decide, by decide,
    fun u env => rfl, fun u env => rfl, fun u env => rfl, fun u env => rfl,
    ⟨hpo, ?_, fun u env => pdfRoute_saveOptions_eq (some l) (some "low") u env
      (by rw [hrl, hrlow, hpo])⟩,
    fun u env s h => ?_, fun u env s h => ?_, fun hp => ?_, fun hp => ?_⟩
  · unfold pdfCompressionOptionsFor; simp [h0, h1, h2]
  · have hx := (imageRoute_stats_level u (some l) env s h).1
    rwa [hrl] at hx
  · have hx := (pdfRoute_stats_level u (some l) env s h).1
    rwa [hrl] at hx
  · have hq : getQualitySettings l = getQualitySettings "medium" := by
      unfold getQualitySettings; simp [h0, h1, h2, hp]
    refine ⟨hq, fun u env => imageRoute_unknown_level l h0 h1 h2 h3 hp u env,
      fun u env s h => ?_⟩
    have hx := (pdfRoute_stats_level u (some l) env s h).2
    rw [hrl, hq] at hx
    exact hx.trans (by decide)
  · have hgs : getQualitySettings l = ⟨none, none⟩ := by
      unfold getQualitySettings; simp [h0, h1, h2, hp]
    refine ⟨hgs, by rw [hgs]; decide, by rw [hgs]; decide,
      fun u env s h => ?_, fun u env s h => ?_⟩
    · have hx := (imageRoute_stats_level u (some l) env s h).2
      rw [hrl, hgs] at hx
      exact hx.trans (by decide)
    · have hx := (pdfRoute_stats_level u (some l) env s h).2
      rw [hrl, hgs] at hx
      exact hx.trans (by decide)

/-- C1 witness: at the concrete unknown level bogus, the quality
settings resolve as medium, the sample image response equals the medium
response with its compressionLevel replaced by bogus, and the PDF save
options match the low run; at the inherited name constructor the lookup
yields undefined quality and description; an empty level query behaves
fully as medium. -/
theorem quality_policy_spec_witness :
    getQualitySettings "bogus" = getQualitySettings "medium" ∧
    imageUploadRoute (some samplePng) (some "bogus") sampleEnv =
      (imageUploadRoute (some samplePng) (some "medium") sampleEnv).withLevel "bogus" ∧
    (pdfCompressRoute (some samplePdf) (some "bogus") samplePdfEnv).saveOptions =
      (pdfCompressRoute (some samplePdf) (some "low") samplePdfEnv).saveOptions ∧
    getQualitySettings "constructor" = ⟨none, none⟩ ∧
    imageUploadRoute (some samplePng) (some "") sampleEnv =
      imageUploadRoute (some samplePng) (some "medium") sampleEnv := by
  obtain ⟨-, -, -, hempty, -, -, -, ⟨-, -, hsave⟩, -, -, hunk, -⟩ :=
    quality_policy_spec "bogus" (by decide) (by decide) (by decide) (by decide)
  obtain ⟨-, -, -, -, -, -, -, -, -, -, -, hinh⟩ :=
    quality_policy_spec "constructor" (by decide) (by decide) (by decide) (by decide)
  obtain ⟨hq, himg, -⟩ := hunk (by decide)
  obtain ⟨hgs, -, -, -, -⟩ := hinh (by decide)
  exact ⟨hq, himg (some samplePng) sampleEnv, hsave (some samplePdf) samplePdfEnv, hgs,
    hempty (some samplePng) sampleEnv⟩

theorem extMap_some_mem (m : String) (e : String) (h : extMap m = some e) :
    m ∈ (["image/jpeg", "image/png", "image/webp"] : List String) := by
  unfold extMap at h
  repeat' split at h
  all_goals simp_all

/-- C4 counterexample: an upload declaring text/plain is outside the
supported set, but the route responds 500, not 400: the multer
fileFilter aborts with a plain Error, which the error middleware does
not recognize as a MulterError and maps to the generic 500.  No file is
written. -/
theorem unsupported_type_500_cex :
    plainTextFile.mimetype ∉ ["image/jpeg", "image/png", "image/webp", "application/pdf"] ∧
    (imageUploadRoute (some plainTextFile) none sampleEnv).status = 500 ∧
    (imageUploadRoute (some plainTextFile) none sampleEnv).status ≠ 400 ∧
    (imageUploadRoute (some plainTextFile) none sampleEnv).error = some ("Internal server error") ∧
    (imageUploadRoute (some plainTextFile) none sampleEnv).written = [] := by
  decide

/-- C4 (amended): an upload whose declared MIME type is outside the
supported set writes no file and is rejected, but the status depends on
where it is rejected: a type inside the multer allow-list but outside
the extension map (image/jpg, or application/pdf on the image endpoint)
gets 400 Unsupported format, while a type outside the allow-list is
aborted by the fileFilter's plain Error and surfaces as a 500 from the
generic error middleware, not a 400.  The same split applies to the PDF
endpoint for non-PDF types. -/
theorem unsupported_type_reject (f : UploadedFile) (lq : Option String) (env : ImageEnv)
    (penv : PdfEnv) (himg : extMap f.mimetype = none) :
    ((imageUploadRoute (some f) lq env).written = [] ∧
      (imageUploadRoute (some f) lq env).codecInvoked = false) ∧
    (f.mimetype ∈ allowedTypes → (imageUploadRoute (some f) lq env).status = 400) ∧
    (f.mimetype ∈ allowedTypes → f.size ≤ fileSizeLimit →
      (imageUploadRoute (some f) lq env).error = some ("Unsupported format")) ∧
    (f.mimetype ∉ allowedTypes →
      (imageUploadRoute (some f) lq env).status = 500 ∧
      (imageUploadRoute (some f) lq env).error = some ("Internal server error")) ∧
    (f.mimetype ≠ "application/pdf" →
      ((pdfCompressRoute (some f) lq penv).written = [] ∧
        (pdfCompressRoute (some f) lq penv).codecInvoked = false) ∧
      (f.mimetype ∈ allowedTypes → (pdfCompressRoute (some f) lq penv).status = 400) ∧
      (f.mimetype ∉ allowedTypes → (pdfCompressRoute (some f) lq penv).status = 500)) := by
  refine ⟨?_, fun hmem => ?_, fun hmem hsize => ?_, fun hmem => ?_, fun hpdf => ?_⟩
  · by_cases hmem : f.mimetype ∈ allowedTypes <;> by_cases hsize : f.size ≤ fileSizeLimit <;>
      simp [imageUploadRoute, multerSingle, hmem, hsize, imageUploadHandler, himg]
  · by_cases hsize : f.size ≤ fileSizeLimit <;>
      simp [imageUploadRoute, multerSingle, hmem, hsize, imageUploadHandler, himg]
  · simp [imageUploadRoute, multerSingle, hmem, hsize, imageUploadHandler, himg]
  · simp [imageUploadRoute, multerSingle, hmem]
  · refine ⟨?_, fun hmem => ?_, fun hmem => ?_⟩
    · by_cases hmem : f.mimetype ∈ allowedTypes <;> by_cases hsize : f.size ≤ fileSizeLimit <;>
        simp [pdfCompressRoute, multerSingle, hmem, hsize, pdfCompressHandler, pdfCatch500, hpdf]
    · by_cases hsize : f.size ≤ fileSizeLimit <;>
        simp [pdfCompressRoute, multerSingle, hmem, hsize, pdfCompressHandler, pdfCatch500, hpdf]
    · simp [pdfCompressRoute, multerSingle, hmem]

/-- C4 witness: an upload declaring application/pdf on the image
endpoint passes the allow-list, is rejected by the extension map with
400 Unsupported format, and writes nothing. -/
theorem unsupported_type_reject_witness :
    extMap samplePdf.mimetype = none ∧
    (imageUploadRoute (some samplePdf) none sampleEnv).status = 400 ∧
    (imageUploadRoute (some samplePdf) none sampleEnv).error = some ("Unsupported format") ∧
    (imageUploadRoute (some samplePdf) none sampleEnv).written = [] := by
  have h := unsupported_type_reject samplePdf none sampleEnv samplePdfEnv (by decide)
  exact ⟨by decide, h.2.1 (by decide), h.2.2.1 (by decide) (by decide), h.1.1⟩

/-- C5 counterexample: an upload one byte over the 50 MiB ceiling that
also declares a type outside the allow-list is aborted by the
fileFilter before any bytes stream, so the response is the generic 500,
not 400 File too large. -/
theorem oversize_500_cex :
    fileSizeLimit < bigPlainTextFile.size ∧
    (imageUploadRoute (some bigPlainTextFile) none sampleEnv).status = 500 ∧
    (imageUploadRoute (some bigPlainTextFile) none sampleEnv).status ≠ 400 ∧
    (imageUploadRoute (some bigPlainTextFile) none sampleEnv).codecInvoked = false := by
  decide

/-- C5 (amended): every upload exceeding the 50 MiB ceiling is
rejected with no codec invocation and no file written, on both
endpoints; the status is 400 File too large when the declared type
passes the multer allow-list (the fileFilter runs before the size limit
triggers), and the generic 500 otherwise. -/
theorem oversize_reject (f : UploadedFile) (lq : Option String) (env : ImageEnv)
    (penv : PdfEnv) (hbig : fileSizeLimit < f.size) :
    ((imageUploadRoute (some f) lq env).codecInvoked = false ∧
      (imageUploadRoute (some f) lq env).written = [] ∧
      (pdfCompressRoute (some f) lq penv).codecInvoked = false ∧
      (pdfCompressRoute (some f) lq penv).written = []) ∧
    (f.mimetype ∈ allowedTypes →
      imageUploadRoute (some f) lq env =
        { status := 400, error := some ("File too large"),
          message := some ("Image file must be smaller than 50MB") } ∧
      pdfCompressRoute (some f) lq penv =
        { status := 400, error := some ("File too large"),
          message := some ("Image file must be smaller than 50MB") }) ∧
    (f.mimetype ∉ allowedTypes →
      (imageUploadRoute (some f) lq env).status = 500 ∧
      (pdfCompressRoute (some f) lq penv).status = 500) := by
  have hsize : ¬ (f.size ≤ fileSizeLimit) := Nat.not_le.mpr hbig
  refine ⟨?_, fun hmem => ?_, fun hmem => ?_⟩
  · by_cases hmem : f.mimetype ∈ allowedTypes <;>
      simp [imageUploadRoute, pdfCompressRoute, multerSingle, hmem, hsize]
  · constructor <;> simp [imageUploadRoute, pdfCompressRoute, multerSingle, hmem, hsize]
  · constructor <;> simp [imageUploadRoute, pdfCompressRoute, multerSingle, hmem]

/-- C5 witness: an oversized PNG upload gets 400 File too large with
the codec never invoked. -/
theorem oversize_reject_witness :
    fileSizeLimit < bigPngFile.size ∧
    (imageUploadRoute (some bigPngFile) none sampleEnv).codecInvoked = false ∧
    imageUploadRoute (some bigPngFile) none sampleEnv =
      { status := 400, error := some ("File too large"),
        message := some ("Image file must be smaller than 50MB") } := by
  have h := oversize_reject bigPngFile none sampleEnv samplePdfEnv (by decide)
  exact ⟨by decide, h.1.1, (h.2.1 (by decide)).1⟩

/-- C6 counterexample: an accepted small PNG whose metadata probe
throws (sharp cannot read the buffer at all) is answered with the
catch-all 500 Image processing failed, not with 400 Invalid image. -/
theorem invalid_image_500_cex :
    (imageUploadRoute (some smallPng) none badProbeEnv).status = 500 ∧
    (imageUploadRoute (some smallPng) none badProbeEnv).error = some ("Image processing failed") ∧
    (imageUploadRoute (some smallPng) none badProbeEnv).status ≠ 400 ∧
    (imageUploadRoute (some smallPng) none badProbeEnv).written = [] := by
  decide

/-- C6 (amended): for an accepted image upload within the size cap, if
the metadata probe returns but its width or height is unreadable
(absent or zero), the response is 400 Invalid image and no file is
written; if the probe itself throws, the catch-all turns it into a 500
Image processing failed, likewise with no file written. -/
theorem invalid_image_check (f : UploadedFile) (lq : Option String) (env : ImageEnv)
    (ext : String) (hext : extMap f.mimetype = some ext) (hsize : f.size ≤ fileSizeLimit)
    (hmk : env.mkdirOk = true) :
    (∀ md, env.metadataResult = some md →
      (truthyNat md.width = false ∨ truthyNat md.height = false) →
      imageUploadRoute (some f) lq env =
        { status := 400, error := some ("Invalid image"),
          message := some ("Unable to read image dimensions. File may be corrupted."),
          codecInvoked := true }) ∧
    (env.metadataResult = none →
      imageUploadRoute (some f) lq env = imageCatch500 true) := by
  have hmem : f.mimetype ∈ allowedTypes := by
    have h3 := extMap_some_mem f.mimetype ext hext
    simp only [allowedTypes]
    simp at h3
    rcases h3 with h | h | h <;> simp [h]
  constructor
  · intro md hmd htr
    simp [imageUploadRoute, multerSingle, hmem, hsize, imageUploadHandler, hext, hmk, hmd, htr]
  · intro hnone
    simp [imageUploadRoute, multerSingle, hmem, hsize, imageUploadHandler, hext, hmk, hnone,
      imageCatch500]

/-- C6 witness: a probe reporting width zero fails the dimension
validation and the request is answered 400 Invalid image with nothing
written. -/
theorem invalid_image_check_witness :
    imageUploadRoute (some smallPng) none zeroDimEnv =
      { status := 400, error := some ("Invalid image"),
        message := some ("Unable to read image dimensions. File may be corrupted."),
        codecInvoked := true } := by
  have h := invalid_image_check smallPng none zeroDimEnv "png" (by decide) (by decide) (by decide)
  exact h.1 ⟨some 0, some 500⟩ (by decide) (by decide)

/-- C10: image/jpg and application/pdf are in the multer allow-list but
absent from the handler's extension map, so such uploads (within the
size cap) end with 400 Unsupported format; a request succeeds only when
its declared type is image/jpeg, image/png or image/webp, and each of
those three can succeed end to end. -/
theorem mime_allowlist_extmap_gap :
    ("image/jpg" ∈ allowedTypes ∧ "application/pdf" ∈ allowedTypes) ∧
    (∀ (f : UploadedFile) (lq : Option String) (env : ImageEnv),
      (f.mimetype = "image/jpg" ∨ f.mimetype = "application/pdf") →
      f.size ≤ fileSizeLimit →
      imageUploadRoute (some f) lq env =
        { status := 400, error := some ("Unsupported format"),
          message := some ("Only JPEG, PNG, and WebP images are supported") }) ∧
    (∀ (f : UploadedFile) (lq : Option String) (env : ImageEnv),
      (imageUploadRoute (some f) lq env).success = true →
      f.mimetype ∈ (["image/jpeg", "image/png", "image/webp"] : List String)) ∧
    ((imageUploadRoute (some ⟨"sample", "image/jpeg", 1000⟩) none sampleEnv).success = true ∧
     (imageUploadRoute (some ⟨"sample", "image/png", 1000⟩) none sampleEnv).success = true ∧
     (imageUploadRoute (some ⟨"sample", "image/webp", 1000⟩) none sampleEnv).success = true) := by
  refine ⟨by decide, ?_, ?_, by decide⟩
  · intro f lq env hm hsize
    rcases hm with hm | hm <;>
      simp [imageUploadRoute, multerSingle, imageUploadHandler, extMap, allowedTypes, hm, hsize]
  · intro f lq env hsucc
    unfold imageUploadRoute at hsucc
    split at hsucc
    case _ f' heq0 =>
      have hf : some f = f' := multerSingle_reached _ _ heq0
      subst hf
      simp only [imageUploadHandler, imageCatch500] at hsucc
      repeat' split at hsucc
      all_goals first
        | exact extMap_some_mem _ _ (by assumption)
        | simp_all
    all_goals simp_all

/-- C10 witness: a concrete image/jpg upload within the cap is rejected
by the extension map with 400 Unsupported format. -/
theorem mime_allowlist_extmap_gap_witness :
    imageUploadRoute (some jpgMimeFile) none sampleEnv =
      { status := 400, error := some ("Unsupported format"),
        message := some ("Only JPEG, PNG, and WebP images are supported") } :=
  mime_allowlist_extmap_gap.2.1 jpgMimeFile none sampleEnv (by decide) (by decide)

/-- C9 witness: the no-file request at a concrete probe value gets the
400 with the error-only body. -/
theorem image_info_no_file_400_witness :
    imageInfoRoute none none = { status := 400, error := some ("No image uploaded") } :=
  (image_info_no_file_400 none).1
